import Mathlib

/-!
Verification of the Product Scene Generator UI (design_app).

The development shallowly embeds the two source files of the repository:

* `src/App.tsx` — the `App` component (here `DesignApp.AppState`,
  `DesignApp.isFormValid`, `DesignApp.handleGenerate`, the submit button
  gating `DesignApp.submitClick`, and the result-panel render conditions
  `DesignApp.shownPanels`);
* `src/unnamed/part_000` — the `ImageUploader` component (here
  `DesignApp.handleFileChange` and `DesignApp.handleDrop`, whose
  synchronous observable effects are collected in `DesignApp.PickerEffect`).

The external collaborators `fileToBase64` (FileEncoder) and
`generateProductScene` (GenerationClient) are not part of the repository
sources; their outcomes are modelled as oracles (`EncodeOutcome`,
`GenOutcome`) following the spec's contracts.  The asynchronous submit
handler is embedded as a function from the pre-state and the oracle
outcomes to the post-state together with the ordered trace of observable
calls (`Event`) it performs.  State transitions are taken to be atomic per
event callback, matching the spec's single-threaded cooperative model.
-/

namespace DesignApp

/-- A browser `File` value: only its identity (name) and its declared MIME
type are observable to this program. -/
structure File where
  name : String
  type : String
deriving DecidableEq, Repr

/-- The state held by the `App` component: the four form fields
(`productImage`, `logoImage`, `subject`, `scene`) and the three result
variables (`generatedImage`, `isLoading`, `error`), exactly as declared by
the seven `useState` hooks in `src/App.tsx`. -/
structure AppState where
  productImage : Option File
  logoImage : Option File
  subject : String
  scene : String
  generatedImage : Option String
  isLoading : Bool
  error : Option String
deriving DecidableEq, Repr

/-- The initial state of the seven `useState` hooks. -/
def initialState : AppState :=
  { productImage := none, logoImage := none, subject := "", scene := "",
    generatedImage := none, isLoading := false, error := none }

/-- The JavaScript builtin `String.prototype.trim`: strips leading and
trailing whitespace.  (Defined over the character list so that it
evaluates inside the kernel.) -/
def jsTrim (s : String) : String :=
  String.mk (((s.toList.dropWhile Char.isWhitespace).reverse.dropWhile
    Char.isWhitespace).reverse)

/-- The JavaScript builtin `String.prototype.startsWith`: whether `s`
begins with `pat`.  (Defined over the character list so that it evaluates
inside the kernel.) -/
def jsStartsWith (s pat : String) : Bool :=
  pat.toList.isPrefixOf s.toList

/-- The derived `isFormValid = productImage && logoImage && subject.trim() && scene.trim()`:
truthy iff both files are present and both texts are non-empty after
trimming. -/
def isFormValid (s : AppState) : Bool :=
  s.productImage.isSome && s.logoImage.isSome &&
    !(jsTrim s.subject == "") && !(jsTrim s.scene == "")

/-- The fixed validation message set by `handleGenerate` when the form is
incomplete. -/
def validationMessage : String :=
  "Please fill in all fields and upload both images."

/-- The fallback message used when a thrown value is not an `Error`. -/
def unknownErrorMessage : String :=
  "An unknown error occurred. Check the console for details."

/-- A JavaScript thrown value as observed by the `catch` clause: either an
`Error` carrying a message, or any other value. -/
inductive Thrown where
  | jsError (message : String)
  | other
deriving DecidableEq, Repr

/-- The expression `err instanceof Error ? err.message : fallback` of the catch clause. -/
def errorText : Thrown → String
  | Thrown.jsError m => m
  | Thrown.other => unknownErrorMessage

/-- Modelled from the spec: the FileEncoder (`fileToBase64`, imported from
`./utils/fileUtils`, not under `src/`) asynchronously produces the base64
encoding of a file or fails if the underlying read fails (spec §4.1).  An
`EncodeOutcome` is the oracle outcome of one such call. -/
inductive EncodeOutcome where
  | ok (b64 : String)
  | thrown (t : Thrown)
deriving DecidableEq, Repr

/-- Modelled from the spec: the GenerationClient (`generateProductScene`,
imported from `./services/geminiService`, not under `src/`) returns a
base64 result image or fails with a descriptive error (spec §4.3).  A
`GenOutcome` is the oracle outcome of one such call. -/
inductive GenOutcome where
  | ok (img : String)
  | thrown (t : Thrown)
deriving DecidableEq, Repr

/-- An observable action performed by `handleGenerate`, in program order:
state setter calls, FileEncoder calls and the GenerationClient call. -/
inductive Event where
  | setLoading (v : Bool)
  | setErrorMsg (v : Option String)
  | setGenerated (v : Option String)
  | encodeFile (f : File)
  | generateScene (productB64 logoB64 subject scene : String)
deriving DecidableEq, Repr

/-- The function `handleGenerate` of `src/App.tsx`, as a function from the captured
state and the oracle outcomes of the two encodes and the generation call
to the post-state and the ordered trace of observable events.

Source shape: `if (!isFormValid) { setError(msg); return; }` then
`setIsLoading(true); setError(null); setGeneratedImage(null);` then
`try { await fileToBase64(productImage); await fileToBase64(logoImage);
await generateProductScene(...); setGeneratedImage(result); }
catch (err) { setError(err instanceof Error ? err.message : fallback); }
finally { setIsLoading(false); }`.  The `match` on the two files together
with the trim guard is exactly the `!isFormValid` test. -/
def handleGenerate (s : AppState) (encProduct encLogo : EncodeOutcome)
    (gen : GenOutcome) : AppState × List Event :=
  match s.productImage, s.logoImage with
  | some p, some l =>
    if jsTrim s.subject == "" || jsTrim s.scene == "" then
      ({ s with error := some validationMessage },
       [Event.setErrorMsg (some validationMessage)])
    else
      let s1 : AppState :=
        { s with isLoading := true, error := none, generatedImage := none }
      let pre : List Event :=
        [Event.setLoading true, Event.setErrorMsg none, Event.setGenerated none]
      match encProduct with
      | EncodeOutcome.thrown t =>
          ({ s1 with error := some (errorText t), isLoading := false },
           pre ++ [Event.encodeFile p,
                   Event.setErrorMsg (some (errorText t)), Event.setLoading false])
      | EncodeOutcome.ok productB64 =>
        match encLogo with
        | EncodeOutcome.thrown t =>
            ({ s1 with error := some (errorText t), isLoading := false },
             pre ++ [Event.encodeFile p, Event.encodeFile l,
                     Event.setErrorMsg (some (errorText t)), Event.setLoading false])
        | EncodeOutcome.ok logoB64 =>
          match gen with
          | GenOutcome.thrown t =>
              ({ s1 with error := some (errorText t), isLoading := false },
               pre ++ [Event.encodeFile p, Event.encodeFile l,
                       Event.generateScene productB64 logoB64 s.subject s.scene,
                       Event.setErrorMsg (some (errorText t)), Event.setLoading false])
          | GenOutcome.ok resultImage =>
              ({ s1 with generatedImage := some resultImage, isLoading := false },
               pre ++ [Event.encodeFile p, Event.encodeFile l,
                       Event.generateScene productB64 logoB64 s.subject s.scene,
                       Event.setGenerated (some resultImage), Event.setLoading false])
  | _, _ =>
      ({ s with error := some validationMessage },
       [Event.setErrorMsg (some validationMessage)])

/-- Whether an event is an invocation of the GenerationClient. -/
def Event.isGenerate : Event → Bool
  | Event.generateScene _ _ _ _ => true
  | _ => false

/-- Whether an event is an invocation of the FileEncoder. -/
def Event.isEncode : Event → Bool
  | Event.encodeFile _ => true
  | _ => false

/-- Number of GenerationClient invocations in a trace. -/
def generateCount (es : List Event) : Nat :=
  es.countP fun e => e.isGenerate

/-- Number of FileEncoder invocations in a trace. -/
def encodeCount (es : List Event) : Nat :=
  es.countP fun e => e.isEncode

/-- The synchronous observable effects of one `ImageUploader` event
handler invocation: a synchronous `setPreview` call if any, the file on
which an asynchronous `FileReader` preview read was started if any, the
ordered `onFileChange` callback invocations made within the turn, the
`alert` messages raised, and the file list assigned to the underlying
`<input type="file">` element if any. -/
structure PickerEffect where
  previewSet : Option (Option String)
  previewReadStarted : Option File
  callbacks : List (Option File)
  alerts : List String
  inputFilesSet : Option (List File)
deriving DecidableEq, Repr

/-- The handler `handleFileChange` of `src/unnamed/part_000` (the `ImageUploader`),
applied to the file list of the change event (`event.target.files`):
`const file = event.target.files?.[0] || null;` then, when a file is
present, a non-image type raises `alert('Please select an image file.')`
and returns; an image type starts the asynchronous preview read; when no
file is present `setPreview(null)` runs; in the two latter cases
`onFileChange(file)` is then called. -/
def handleFileChange (files : List File) : PickerEffect :=
  match files.head? with
  | some f =>
      if jsStartsWith f.type "image/" then
        { previewSet := none, previewReadStarted := some f,
          callbacks := [some f], alerts := [], inputFilesSet := none }
      else
        { previewSet := none, previewReadStarted := none,
          callbacks := [], alerts := ["Please select an image file."],
          inputFilesSet := none }
  | none =>
      { previewSet := some none, previewReadStarted := none,
        callbacks := [none], alerts := [], inputFilesSet := none }

/-- The handler `handleDrop` of `src/unnamed/part_000` (the `ImageUploader`), applied
to the file list of the drop event (`event.dataTransfer.files`):
`const file = event.dataTransfer.files?.[0] || null;` then
`if (file && file.type.startsWith('image/'))` the preview read starts,
`onFileChange(file)` is called, and a fresh `DataTransfer` containing
exactly the dropped file is assigned to `fileInputRef.current.files`;
otherwise `alert('Please drop an image file.')`. -/
def handleDrop (files : List File) : PickerEffect :=
  match files.head? with
  | some f =>
      if jsStartsWith f.type "image/" then
        { previewSet := none, previewReadStarted := some f,
          callbacks := [some f], alerts := [], inputFilesSet := some [f] }
      else
        { previewSet := none, previewReadStarted := none,
          callbacks := [], alerts := ["Please drop an image file."],
          inputFilesSet := none }
  | none =>
      { previewSet := none, previewReadStarted := none,
        callbacks := [], alerts := ["Please drop an image file."],
        inputFilesSet := none }

/-- The submit button's click behaviour: the button carries
`disabled={!isFormValid || isLoading}`, so a click is a no-op unless the
form is valid and no submission is loading; an enabled click performs the
synchronous prefix of `handleGenerate`'s valid branch
(`setIsLoading(true); setError(null); setGeneratedImage(null);`). -/
def submitClick (s : AppState) : AppState :=
  if isFormValid s && !s.isLoading then
    { s with isLoading := true, error := none, generatedImage := none }
  else s

/-- One atomic event-callback transition of the `App` component:
a form-field update (image selection or clearing via an `ImageUploader`
callback, or an `onChange` of the subject/scene inputs), a click on the
submit button, or the resolution of the pending submission (the
`try`/`catch`/`finally` continuation of `handleGenerate`, which either
stores the generated image or stores an error message, and clears the
loading flag). -/
inductive Step : AppState → AppState → Prop where
  | setProductImage (s : AppState) (f : Option File) :
      Step s { s with productImage := f }
  | setLogoImage (s : AppState) (f : Option File) :
      Step s { s with logoImage := f }
  | setSubject (s : AppState) (t : String) :
      Step s { s with subject := t }
  | setScene (s : AppState) (t : String) :
      Step s { s with scene := t }
  | clickSubmit (s : AppState) :
      Step s (submitClick s)
  | resolveSuccess (s : AppState) (img : String) (h : s.isLoading = true) :
      Step s { s with generatedImage := some img, isLoading := false }
  | resolveFailure (s : AppState) (msg : String) (h : s.isLoading = true) :
      Step s { s with error := some msg, isLoading := false }

/-- A state of the `App` component reachable from the initial render by
event callbacks. -/
def Reachable (s : AppState) : Prop :=
  Relation.ReflTransGen Step initialState s

/-- The four result-panel alternatives of `src/App.tsx`. -/
inductive Panel where
  | loadingIndicator
  | errorPanel
  | resultImage
  | emptyPlaceholder
deriving DecidableEq, Repr

/-- The result-panel children actually rendered, with their conditions
exactly as in the JSX of `src/App.tsx`: `isLoading && ...`,
`error && ...`, `generatedImage && !isLoading && ...`,
`!isLoading && !error && !generatedImage && ...`. -/
def shownPanels (s : AppState) : List Panel :=
  (if s.isLoading then [Panel.loadingIndicator] else []) ++
  (if s.error.isSome then [Panel.errorPanel] else []) ++
  (if s.generatedImage.isSome && !s.isLoading then [Panel.resultImage] else []) ++
  (if !s.isLoading && !s.error.isSome && !s.generatedImage.isSome then
    [Panel.emptyPlaceholder] else [])

/-- The panel selected by the spec's priority order
Submitting > Failed > Success > empty placeholder. -/
def panelByPriority (s : AppState) : Panel :=
  if s.isLoading then Panel.loadingIndicator
  else if s.error.isSome then Panel.errorPanel
  else if s.generatedImage.isSome then Panel.resultImage
  else Panel.emptyPlaceholder

/-- The indicator flags of the four tagged result states as the code
stores them: Loading (`isLoading`), Error (`error` non-null), Success
(`generatedImage` non-null) and Idle (all three clear). -/
def stateFlags (s : AppState) : List Bool :=
  [s.isLoading, s.error.isSome, s.generatedImage.isSome,
   !s.isLoading && !s.error.isSome && !s.generatedImage.isSome]

/-- The mutual-exclusion invariant of the three result variables: while
loading, no error and no result are stored, and an error and a result are
never stored simultaneously. -/
def exclusiveFlags (s : AppState) : Prop :=
  (s.isLoading = true → s.error = none ∧ s.generatedImage = none) ∧
    ¬(s.error.isSome = true ∧ s.generatedImage.isSome = true)

/-- A sample product image file. -/
def catFile : File := { name := "cat.png", type := "image/png" }

/-- A sample logo image file. -/
def logoFile : File := { name := "logo.png", type := "image/png" }

/-- A sample non-image file. -/
def pdfFile : File := { name := "document.pdf", type := "application/pdf" }

/-- A sample state whose form is complete. -/
def completeState : AppState :=
  { initialState with
    productImage := some catFile
    logoImage := some logoFile
    subject := "A dog"
    scene := "On the moon" }

/-- A sample state with an incomplete form (no images, empty texts) but a
previously stored generation result. -/
def staleSuccessState : AppState :=
  { initialState with generatedImage := some "prior-image-b64" }

/-- A successfully completed submission on top of `completeState`. -/
def successState : AppState :=
  { completeState with generatedImage := some "result-b64" }

lemma step_preserves_exclusive {s s' : AppState} (hs : Step s s')
    (h : exclusiveFlags s) : exclusiveFlags s' := by
  obtain ⟨h1, h2⟩ := h
  cases hs with
  | setProductImage f => exact ⟨h1, h2⟩
  | setLogoImage f => exact ⟨h1, h2⟩
  | setSubject t => exact ⟨h1, h2⟩
  | setScene t => exact ⟨h1, h2⟩
  | clickSubmit =>
      unfold submitClick
      by_cases hc : (isFormValid s && !s.isLoading) = true
      · simp only [hc, if_true]
        exact ⟨fun _ => ⟨rfl, rfl⟩, by simp⟩
      · simp only [hc, if_false]
        exact ⟨h1, h2⟩
  | resolveSuccess img hL =>
      obtain ⟨he, hg⟩ := h1 hL
      exact ⟨fun h => by simp at h, by simp [he]⟩
  | resolveFailure msg hL =>
      obtain ⟨he, hg⟩ := h1 hL
      exact ⟨fun h => by simp at h, by simp [hg]⟩

lemma reachable_exclusive {s : AppState} (h : Reachable s) :
    exclusiveFlags s := by
  induction h with
  | refl => exact ⟨fun h => by simp [initialState] at h, by simp [initialState]⟩
  | tail _ hstep ih => exact step_preserves_exclusive hstep ih

/-- Claim C1: in every reachable state of the `App` component, exactly one
of the four tagged result states {Loading, Error, Success, Idle} holds
(their stored indicator flags are mutually exclusive), and the result
panel renders exactly one of {loading indicator, error panel, result
image, empty placeholder}, namely the one selected by the priority order
Submitting > Failed > Success > empty placeholder. -/
theorem reachable_render_exclusive {s : AppState} (h : Reachable s) :
    (stateFlags s).count true = 1 ∧ shownPanels s = [panelByPriority s] := by
  obtain ⟨h1, h2⟩ := reachable_exclusive h
  cases hL : s.isLoading with
  | true =>
      obtain ⟨he, hg⟩ := h1 hL
      simp [stateFlags, shownPanels, panelByPriority, hL, he, hg]
  | false =>
      cases hE : s.error with
      | some e =>
          have hg : s.generatedImage = none := by
            cases hG : s.generatedImage with
            | none => rfl
            | some g => exact absurd ⟨by simp [hE], by simp [hG]⟩ h2
          simp [stateFlags, shownPanels, panelByPriority, hL, hE, hg]
      | none =>
          cases hG : s.generatedImage with
          | some g => simp [stateFlags, shownPanels, panelByPriority, hL, hE, hG]
          | none => simp [stateFlags, shownPanels, panelByPriority, hL, hE, hG]

/-- Witness for C1: `successState` is reached by filling the four fields,
clicking submit and resolving successfully; there the render shows exactly
the result image. -/
theorem reachable_render_exclusive_witness :
    (stateFlags successState).count true = 1 ∧
      shownPanels successState = [panelByPriority successState] :=
  reachable_render_exclusive
    (Relation.ReflTransGen.tail
      (Relation.ReflTransGen.tail
        (Relation.ReflTransGen.tail
          (Relation.ReflTransGen.tail
            (Relation.ReflTransGen.tail
              (Relation.ReflTransGen.tail Relation.ReflTransGen.refl
                (Step.setProductImage initialState (some catFile)))
              (Step.setLogoImage _ (some logoFile)))
            (Step.setSubject _ "A dog"))
          (Step.setScene _ "On the moon"))
        (Step.clickSubmit _))
      (Step.resolveSuccess _ "result-b64" rfl))

/-- Claim C8: the submit control is inert while a submission is loading
and whenever the form is incomplete: clicking it then leaves the state
unchanged, so re-submission is a no-op until the pending submission
resolves. -/
theorem submit_inert_when_disabled (s : AppState)
    (h : s.isLoading = true ∨ isFormValid s = false) :
    submitClick s = s := by
  unfold submitClick
  cases h with
  | inl h => simp [h]
  | inr h => simp [h]

/-- Witness for C8: clicking submit while `completeState` is loading
changes nothing. -/
theorem submit_inert_when_disabled_witness :
    submitClick { completeState with isLoading := true } =
      { completeState with isLoading := true } :=
  submit_inert_when_disabled { completeState with isLoading := true }
    (Or.inl rfl)

lemma handleGenerate_invalid (s : AppState) (encP encL : EncodeOutcome)
    (gen : GenOutcome) (h : isFormValid s = false) :
    handleGenerate s encP encL gen =
      ({ s with error := some validationMessage },
       [Event.setErrorMsg (some validationMessage)]) := by
  rcases hp : s.productImage with _ | p
  · simp [handleGenerate, hp]
  · rcases hl : s.logoImage with _ | l
    · simp [handleGenerate, hp, hl]
    · have hguard : (jsTrim s.subject == "" || jsTrim s.scene == "") = true := by
        simp [isFormValid, hp, hl] at h
        by_cases hs : jsTrim s.subject = ""
        · simp [hs]
        · simp [h hs]
      simp [handleGenerate, hp, hl, hguard]

/-- Claim C2: a submit action taken while the form is incomplete never
invokes the GenerationClient (nor the FileEncoder) and always sets the
error to the fixed validation message. -/
theorem invalid_submit_no_generate (s : AppState) (encP encL : EncodeOutcome)
    (gen : GenOutcome) (h : isFormValid s = false) :
    generateCount (handleGenerate s encP encL gen).2 = 0 ∧
    encodeCount (handleGenerate s encP encL gen).2 = 0 ∧
    (handleGenerate s encP encL gen).1.error = some validationMessage := by
  rw [handleGenerate_invalid s encP encL gen h]
  exact ⟨rfl, rfl, rfl⟩

/-- Witness for C2: submitting the initial (empty) form calls nothing and
stores the validation message. -/
theorem invalid_submit_no_generate_witness :
    generateCount (handleGenerate initialState (EncodeOutcome.ok "p")
      (EncodeOutcome.ok "l") (GenOutcome.ok "img")).2 = 0 ∧
    encodeCount (handleGenerate initialState (EncodeOutcome.ok "p")
      (EncodeOutcome.ok "l") (GenOutcome.ok "img")).2 = 0 ∧
    (handleGenerate initialState (EncodeOutcome.ok "p")
      (EncodeOutcome.ok "l") (GenOutcome.ok "img")).1.error =
        some validationMessage :=
  invalid_submit_no_generate initialState (EncodeOutcome.ok "p")
    (EncodeOutcome.ok "l") (GenOutcome.ok "img") rfl

/-- Claim C10: a submit action taken while the form is incomplete writes
only the error field: the stored generated image and the loading flag are
left unchanged, so a previously stored success payload survives next to
the new validation message. -/
theorem invalid_submit_frame (s : AppState) (encP encL : EncodeOutcome)
    (gen : GenOutcome) (h : isFormValid s = false) :
    (handleGenerate s encP encL gen).1 =
        { s with error := some validationMessage } ∧
    (handleGenerate s encP encL gen).1.generatedImage = s.generatedImage ∧
    (handleGenerate s encP encL gen).1.isLoading = s.isLoading := by
  rw [handleGenerate_invalid s encP encL gen h]
  exact ⟨rfl, rfl, rfl⟩

/-- Witness for C10: submitting an incomplete form that still holds a
prior success payload keeps that payload (and the cleared loading flag)
while storing the validation message. -/
theorem invalid_submit_frame_witness :
    (handleGenerate staleSuccessState (EncodeOutcome.ok "p")
        (EncodeOutcome.ok "l") (GenOutcome.ok "img")).1 =
      { staleSuccessState with error := some validationMessage } ∧
    (handleGenerate staleSuccessState (EncodeOutcome.ok "p")
        (EncodeOutcome.ok "l") (GenOutcome.ok "img")).1.generatedImage =
      staleSuccessState.generatedImage ∧
    (handleGenerate staleSuccessState (EncodeOutcome.ok "p")
        (EncodeOutcome.ok "l") (GenOutcome.ok "img")).1.isLoading =
      staleSuccessState.isLoading :=
  invalid_submit_frame staleSuccessState (EncodeOutcome.ok "p")
    (EncodeOutcome.ok "l") (GenOutcome.ok "img") rfl

lemma isFormValid_true_elim {s : AppState} (h : isFormValid s = true) :
    ∃ p l, s.productImage = some p ∧ s.logoImage = some l ∧
      (jsTrim s.subject == "" || jsTrim s.scene == "") = false := by
  rcases hp : s.productImage with _ | p <;> rcases hl : s.logoImage with _ | l <;>
    simp [isFormValid, hp, hl] at h
  exact ⟨p, l, rfl, rfl, by simp [h.1, h.2]⟩

/-- Claim C4: when the GenerationClient resolves successfully during a
submission with a complete form, the controller ends in the Success state
storing exactly the returned payload, with the loading flag cleared and no
error stored; the trace stores the payload immediately after the
generation call and clears the loading flag last. -/
theorem submit_success_state (s : AppState) (pb lb img : String)
    (h : isFormValid s = true) :
    (handleGenerate s (EncodeOutcome.ok pb) (EncodeOutcome.ok lb)
        (GenOutcome.ok img)).1 =
      { s with generatedImage := some img, isLoading := false, error := none } ∧
    ∃ p l, s.productImage = some p ∧ s.logoImage = some l ∧
      (handleGenerate s (EncodeOutcome.ok pb) (EncodeOutcome.ok lb)
          (GenOutcome.ok img)).2 =
        [Event.setLoading true, Event.setErrorMsg none, Event.setGenerated none,
         Event.encodeFile p, Event.encodeFile l,
         Event.generateScene pb lb s.subject s.scene,
         Event.setGenerated (some img), Event.setLoading false] := by
  obtain ⟨p, l, hp, hl, hguard⟩ := isFormValid_true_elim h
  refine ⟨?_, p, l, hp, hl, ?_⟩ <;> simp [handleGenerate, hp, hl, hguard]

/-- Witness for C4: a successful submission of `completeState` stores the
returned payload with loading cleared. -/
theorem submit_success_state_witness :
    (handleGenerate completeState (EncodeOutcome.ok "p-b64")
        (EncodeOutcome.ok "l-b64") (GenOutcome.ok "result-b64")).1 =
      { completeState with
        generatedImage := some "result-b64"
        isLoading := false
        error := none } ∧
    ∃ p l, completeState.productImage = some p ∧
      completeState.logoImage = some l ∧
      (handleGenerate completeState (EncodeOutcome.ok "p-b64")
          (EncodeOutcome.ok "l-b64") (GenOutcome.ok "result-b64")).2 =
        [Event.setLoading true, Event.setErrorMsg none, Event.setGenerated none,
         Event.encodeFile p, Event.encodeFile l,
         Event.generateScene "p-b64" "l-b64" completeState.subject
           completeState.scene,
         Event.setGenerated (some "result-b64"), Event.setLoading false] :=
  submit_success_state completeState "p-b64" "l-b64" "result-b64" (by decide)

/-- The first failing outcome of the sequence product encode, logo encode,
generation call, if any. -/
def firstFailure : EncodeOutcome → EncodeOutcome → GenOutcome → Option Thrown
  | EncodeOutcome.thrown t, _, _ => some t
  | EncodeOutcome.ok _, EncodeOutcome.thrown t, _ => some t
  | EncodeOutcome.ok _, EncodeOutcome.ok _, GenOutcome.thrown t => some t
  | EncodeOutcome.ok _, EncodeOutcome.ok _, GenOutcome.ok _ => none

/-- Claim C5: when the GenerationClient or an encode step fails during a
submission with a complete form, the controller ends in the Failed state
with the loading flag cleared and no stored result, and the stored message
is the failure's own message verbatim when the thrown value is an `Error`,
otherwise the generic fallback message. -/
theorem submit_failure_state (s : AppState) (encP encL : EncodeOutcome)
    (gen : GenOutcome) (t : Thrown) (h : isFormValid s = true)
    (hf : firstFailure encP encL gen = some t) :
    (handleGenerate s encP encL gen).1 =
      { s with
        generatedImage := none
        isLoading := false
        error := some (errorText t) } ∧
    (∀ m, t = Thrown.jsError m →
      (handleGenerate s encP encL gen).1.error = some m) ∧
    (t = Thrown.other →
      (handleGenerate s encP encL gen).1.error = some unknownErrorMessage) := by
  obtain ⟨p, l, hp, hl, hguard⟩ := isFormValid_true_elim h
  cases encP with
  | thrown t0 =>
      injection hf with ht
      subst ht
      refine ⟨by simp [handleGenerate, hp, hl, hguard], ?_, ?_⟩
      · intro m hm
        subst hm
        simp [handleGenerate, hp, hl, hguard, errorText]
      · intro hm
        subst hm
        simp [handleGenerate, hp, hl, hguard, errorText]
  | ok pb =>
    cases encL with
    | thrown t0 =>
        injection hf with ht
        subst ht
        refine ⟨by simp [handleGenerate, hp, hl, hguard], ?_, ?_⟩
        · intro m hm
          subst hm
          simp [handleGenerate, hp, hl, hguard, errorText]
        · intro hm
          subst hm
          simp [handleGenerate, hp, hl, hguard, errorText]
    | ok lb =>
      cases gen with
      | thrown t0 =>
          injection hf with ht
          subst ht
          refine ⟨by simp [handleGenerate, hp, hl, hguard], ?_, ?_⟩
          · intro m hm
            subst hm
            simp [handleGenerate, hp, hl, hguard, errorText]
          · intro hm
            subst hm
            simp [handleGenerate, hp, hl, hguard, errorText]
      | ok img => simp [firstFailure] at hf

/-- Witness for C5: the GenerationClient rejecting with message
"quota exceeded" yields the Failed state displaying "quota exceeded"
verbatim, with loading cleared. -/
theorem submit_failure_state_witness :
    (handleGenerate completeState (EncodeOutcome.ok "p-b64")
        (EncodeOutcome.ok "l-b64")
        (GenOutcome.thrown (Thrown.jsError "quota exceeded"))).1 =
      { completeState with
        generatedImage := none
        isLoading := false
        error := some (errorText (Thrown.jsError "quota exceeded")) } ∧
    (∀ m, Thrown.jsError "quota exceeded" = Thrown.jsError m →
      (handleGenerate completeState (EncodeOutcome.ok "p-b64")
          (EncodeOutcome.ok "l-b64")
          (GenOutcome.thrown (Thrown.jsError "quota exceeded"))).1.error =
        some m) ∧
    (Thrown.jsError "quota exceeded" = Thrown.other →
      (handleGenerate completeState (EncodeOutcome.ok "p-b64")
          (EncodeOutcome.ok "l-b64")
          (GenOutcome.thrown (Thrown.jsError "quota exceeded"))).1.error =
        some unknownErrorMessage) :=
  submit_failure_state completeState (EncodeOutcome.ok "p-b64")
    (EncodeOutcome.ok "l-b64")
    (GenOutcome.thrown (Thrown.jsError "quota exceeded"))
    (Thrown.jsError "quota exceeded") (by decide) rfl

/-- Claim C3 (amended): a submit action with a complete form first enters
Submitting — clearing the prior error and prior result — and encodes the
product image, all before any GenerationClient call; the GenerationClient
is invoked at most once, and exactly once — after the product and then the
logo encode, with the two encoded payloads and the two texts — whenever
both encodes succeed. -/
theorem valid_submit_trace (s : AppState) (encP encL : EncodeOutcome)
    (gen : GenOutcome) (h : isFormValid s = true) :
    ∃ p l, s.productImage = some p ∧ s.logoImage = some l ∧
      (handleGenerate s encP encL gen).2.take 4 =
        [Event.setLoading true, Event.setErrorMsg none, Event.setGenerated none,
         Event.encodeFile p] ∧
      generateCount (handleGenerate s encP encL gen).2 ≤ 1 ∧
      ∀ pb lb, encP = EncodeOutcome.ok pb → encL = EncodeOutcome.ok lb →
        (handleGenerate s encP encL gen).2.take 6 =
          [Event.setLoading true, Event.setErrorMsg none, Event.setGenerated none,
           Event.encodeFile p, Event.encodeFile l,
           Event.generateScene pb lb s.subject s.scene] ∧
        generateCount (handleGenerate s encP encL gen).2 = 1 := by
  obtain ⟨p, l, hp, hl, hguard⟩ := isFormValid_true_elim h
  refine ⟨p, l, hp, hl, ?_, ?_, ?_⟩
  · cases encP <;> cases encL <;> cases gen <;>
      simp [handleGenerate, hp, hl, hguard]
  · cases encP <;> cases encL <;> cases gen <;>
      simp [handleGenerate, hp, hl, hguard, generateCount, Event.isGenerate]
  · intro pb lb hpb hlb
    subst hpb
    subst hlb
    cases gen <;>
      simp [handleGenerate, hp, hl, hguard, generateCount, Event.isGenerate]

/-- Counterexample to C3 as stated: on a complete form, when the product
image encode fails, the GenerationClient is invoked zero times — not
exactly once — and the logo image is never encoded. -/
theorem valid_submit_exactly_once_cex :
    isFormValid completeState = true ∧
    generateCount (handleGenerate completeState
      (EncodeOutcome.thrown Thrown.other) (EncodeOutcome.ok "l-b64")
      (GenOutcome.ok "img-b64")).2 = 0 ∧
    encodeCount (handleGenerate completeState
      (EncodeOutcome.thrown Thrown.other) (EncodeOutcome.ok "l-b64")
      (GenOutcome.ok "img-b64")).2 = 1 := by
  refine ⟨by decide, by decide, by decide⟩

/-- Witness for C3 (amended): a fully successful submission of
`completeState` shows the claimed trace. -/
theorem valid_submit_trace_witness :
    ∃ p l, completeState.productImage = some p ∧
      completeState.logoImage = some l ∧
      (handleGenerate completeState (EncodeOutcome.ok "p-b64")
          (EncodeOutcome.ok "l-b64") (GenOutcome.ok "img-b64")).2.take 4 =
        [Event.setLoading true, Event.setErrorMsg none, Event.setGenerated none,
         Event.encodeFile p] ∧
      generateCount (handleGenerate completeState (EncodeOutcome.ok "p-b64")
        (EncodeOutcome.ok "l-b64") (GenOutcome.ok "img-b64")).2 ≤ 1 ∧
      ∀ pb lb, EncodeOutcome.ok "p-b64" = EncodeOutcome.ok pb →
        EncodeOutcome.ok "l-b64" = EncodeOutcome.ok lb →
        (handleGenerate completeState (EncodeOutcome.ok "p-b64")
            (EncodeOutcome.ok "l-b64") (GenOutcome.ok "img-b64")).2.take 6 =
          [Event.setLoading true, Event.setErrorMsg none, Event.setGenerated none,
           Event.encodeFile p, Event.encodeFile l,
           Event.generateScene pb lb completeState.subject completeState.scene] ∧
        generateCount (handleGenerate completeState (EncodeOutcome.ok "p-b64")
          (EncodeOutcome.ok "l-b64") (GenOutcome.ok "img-b64")).2 = 1 :=
  valid_submit_trace completeState (EncodeOutcome.ok "p-b64")
    (EncodeOutcome.ok "l-b64") (GenOutcome.ok "img-b64") (by decide)

/-- Claim C6: a non-image file presented to the `ImageUploader` — via the
file dialog or via drag-and-drop — never reaches the parent callback; a
blocking alert is raised, and neither the preview nor the underlying input
selection is touched, so the previous preview and previously reported
selection stay unchanged. -/
theorem picker_rejects_non_image (f : File)
    (h : jsStartsWith f.type "image/" = false) :
    handleFileChange [f] =
      { previewSet := none, previewReadStarted := none, callbacks := [],
        alerts := ["Please select an image file."], inputFilesSet := none } ∧
    handleDrop [f] =
      { previewSet := none, previewReadStarted := none, callbacks := [],
        alerts := ["Please drop an image file."], inputFilesSet := none } := by
  constructor <;> simp [handleFileChange, handleDrop, h]

/-- Witness for C6: a PDF presented either way is rejected with an alert
and no callback. -/
theorem picker_rejects_non_image_witness :
    handleFileChange [pdfFile] =
      { previewSet := none, previewReadStarted := none, callbacks := [],
        alerts := ["Please select an image file."], inputFilesSet := none } ∧
    handleDrop [pdfFile] =
      { previewSet := none, previewReadStarted := none, callbacks := [],
        alerts := ["Please drop an image file."], inputFilesSet := none } :=
  picker_rejects_non_image pdfFile (by decide)

/-- Claim C7: an image file presented to the `ImageUploader` (dialog
selection or drop) is reported to the parent callback exactly once,
carrying the `File` value itself, synchronously within the handling turn
(it is among the effects of the handler invocation itself); the preview is
not set synchronously — only an asynchronous encode of that file is
started, independent of the callback. -/
theorem picker_accepts_image (f : File)
    (h : jsStartsWith f.type "image/" = true) :
    (handleFileChange [f]).callbacks = [some f] ∧
    (handleFileChange [f]).previewSet = none ∧
    (handleFileChange [f]).previewReadStarted = some f ∧
    (handleFileChange [f]).alerts = [] ∧
    (handleDrop [f]).callbacks = [some f] ∧
    (handleDrop [f]).previewSet = none ∧
    (handleDrop [f]).previewReadStarted = some f ∧
    (handleDrop [f]).alerts = [] := by
  simp [handleFileChange, handleDrop, h]

/-- Witness for C7: a PNG presented either way is reported exactly once
with an asynchronous preview read started. -/
theorem picker_accepts_image_witness :
    (handleFileChange [catFile]).callbacks = [some catFile] ∧
    (handleFileChange [catFile]).previewSet = none ∧
    (handleFileChange [catFile]).previewReadStarted = some catFile ∧
    (handleFileChange [catFile]).alerts = [] ∧
    (handleDrop [catFile]).callbacks = [some catFile] ∧
    (handleDrop [catFile]).previewSet = none ∧
    (handleDrop [catFile]).previewReadStarted = some catFile ∧
    (handleDrop [catFile]).alerts = [] :=
  picker_accepts_image catFile (by decide)

/-- Claim C9: after an accepted drag-and-drop the `ImageUploader` assigns
to the underlying native file input a file list containing exactly the
dropped file, which is also the file reported to the parent. -/
theorem drop_syncs_input_files (f : File)
    (h : jsStartsWith f.type "image/" = true) :
    (handleDrop [f]).inputFilesSet = some [f] ∧
    (handleDrop [f]).callbacks = [some f] := by
  simp [handleDrop, h]

/-- Witness for C9: dropping a PNG synchronizes the input's file list to
exactly that file. -/
theorem drop_syncs_input_files_witness :
    (handleDrop [logoFile]).inputFilesSet = some [logoFile] ∧
    (handleDrop [logoFile]).callbacks = [some logoFile] :=
  drop_syncs_input_files logoFile (by decide)

end DesignApp
